import Mathlib

/-!
Verification of the gesture-recognition core of the `taror` repository
(`gestureRecognition.ts`): geometric classifiers, the per-frame swipe
direction, the accumulating `SwipeTracker`, the dispatching
`detectGesture`, and the debouncing `GestureStateManager`.

Coordinates are modelled as exact rationals; a nullable landmark array is
modelled as `Option (List Point)`; `Date.now()` timestamps as integers
passed explicitly.
-/

namespace Taror

/-- A MediaPipe landmark / 2.5D point; `z` is optional in the source and
defaults to 0 here. -/
structure Point where
  x : ℚ
  y : ℚ
  z : ℚ := 0
  deriving DecidableEq

abbrev LandmarkList := List Point

/-- The closed gesture vocabulary of the pipeline. -/
inductive Gesture where
  | swipeLeft
  | swipeRight
  | swipeUp
  | fist
  | none
  deriving DecidableEq

/-- The `'left' | 'right' | 'up'` direction type; the TS `null` is
`Option.none` around it. -/
inductive Dir where
  | left
  | right
  | up
  deriving DecidableEq

/-- Total accumulated movement to count as a swipe. -/
def SWIPE_THRESHOLD : ℚ := 6 / 100

/-- Per-frame movement threshold. -/
def SWIPE_FRAME_THRESHOLD : ℚ := 15 / 1000

/-- Maximum `mcp.y - tip.y` for a closed finger. -/
def FIST_THRESHOLD : ℚ := 7 / 100

/-- Landmark indices used by the classifiers (subset of the `LANDMARK`
table in the source). -/
def WRIST : ℕ := 0

def INDEX_MCP : ℕ := 5

def INDEX_TIP : ℕ := 8

def MIDDLE_MCP : ℕ := 9

def MIDDLE_TIP : ℕ := 12

def RING_MCP : ℕ := 13

def RING_TIP : ℕ := 16

def PINKY_MCP : ℕ := 17

def PINKY_TIP : ℕ := 20

def defaultPoint : Point := ⟨0, 0, 0⟩

/-- `isFingerClosed`: the finger is closed when the tip has not risen more
than `FIST_THRESHOLD` above its MCP joint. Only called on frames with at
least 21 landmarks, so the `getD` default is never hit there. -/
def isFingerClosed (landmarks : LandmarkList) (tipIndex mcpIndex : ℕ) : Bool :=
  let tip := landmarks.getD tipIndex defaultPoint
  let mcp := landmarks.getD mcpIndex defaultPoint
  decide (mcp.y - tip.y < FIST_THRESHOLD)

/-- `isFist`: null or short frame is `false`; otherwise all four non-thumb
fingers must be closed. -/
def isFist (frame : Option LandmarkList) : Bool :=
  match frame with
  | Option.none => false
  | Option.some landmarks =>
    if landmarks.length < 21 then false
    else
      isFingerClosed landmarks INDEX_TIP INDEX_MCP &&
      isFingerClosed landmarks MIDDLE_TIP MIDDLE_MCP &&
      isFingerClosed landmarks RING_TIP RING_MCP &&
      isFingerClosed landmarks PINKY_TIP PINKY_MCP

/-- `isPalmOpen`: null or short frame is `false`; otherwise at least 3 of
the 4 non-thumb fingers must be extended past `OPEN_THRESHOLD (0.05)`. -/
def isPalmOpen (frame : Option LandmarkList) : Bool :=
  match frame with
  | Option.none => false
  | Option.some landmarks =>
    if landmarks.length < 21 then false
    else
      let OPEN_THRESHOLD : ℚ := 5 / 100
      let fingerOpen := fun (mcpIdx tipIdx : ℕ) =>
        decide ((landmarks.getD mcpIdx defaultPoint).y -
          (landmarks.getD tipIdx defaultPoint).y > OPEN_THRESHOLD)
      let opens := [fingerOpen INDEX_MCP INDEX_TIP, fingerOpen MIDDLE_MCP MIDDLE_TIP,
        fingerOpen RING_MCP RING_TIP, fingerOpen PINKY_MCP PINKY_TIP]
      decide ((opens.filter id).length ≥ 3)

/-- `getPalmCenter`: null or short frame gives the origin; otherwise the
mean of the wrist and the four MCP joints. -/
def getPalmCenter (frame : Option LandmarkList) : Point :=
  match frame with
  | Option.none => ⟨0, 0, 0⟩
  | Option.some landmarks =>
    if landmarks.length < 21 then ⟨0, 0, 0⟩
    else
      let mcpIndices : List ℕ := [WRIST, INDEX_MCP, MIDDLE_MCP, RING_MCP, PINKY_MCP]
      let sumX := (mcpIndices.map fun idx => (landmarks.getD idx defaultPoint).x).sum
      let sumY := (mcpIndices.map fun idx => (landmarks.getD idx defaultPoint).y).sum
      ⟨sumX / (mcpIndices.length : ℚ), sumY / (mcpIndices.length : ℚ), 0⟩

/-- `getSwipeDirection`: per-frame direction with the tighter
`SWIPE_FRAME_THRESHOLD`; the vertical test comes first and does not
compare magnitudes. -/
def getSwipeDirection (currentCenter previousCenter : Point) : Option Dir :=
  let deltaX := currentCenter.x - previousCenter.x
  let deltaY := currentCenter.y - previousCenter.y
  if deltaY < -SWIPE_FRAME_THRESHOLD then Option.some Dir.up
  else if deltaX > SWIPE_FRAME_THRESHOLD then Option.some Dir.left
  else if deltaX < -SWIPE_FRAME_THRESHOLD then Option.some Dir.right
  else Option.none

/-- State of the accumulating `SwipeTracker`. -/
structure SwipeTracker where
  accumulatedX : ℚ
  accumulatedY : ℚ
  frameCount : ℕ
  lastDirection : Option Dir
  deriving DecidableEq

def maxFrames : ℕ := 10

/-- The freshly constructed tracker. -/
def SwipeTracker.init : SwipeTracker := ⟨0, 0, 0, Option.none⟩

/-- `reset()`: zero all accumulator state. -/
def SwipeTracker.reset (_s : SwipeTracker) : SwipeTracker :=
  ⟨0, 0, 0, Option.none⟩

/-- `track(currentCenter, previousCenter)`: returns the updated state and
the emitted direction (TS return value, `null` as `Option.none`). -/
def SwipeTracker.track (s : SwipeTracker) (currentCenter previousCenter : Point) :
    SwipeTracker × Option Dir :=
  let deltaX := currentCenter.x - previousCenter.x
  let deltaY := currentCenter.y - previousCenter.y
  let currentDir : Option Dir :=
    if |deltaY| > |deltaX| ∧ deltaY < 0 then Option.some Dir.up
    else if deltaX > 0 then Option.some Dir.left
    else if deltaX < 0 then Option.some Dir.right
    else Option.none
  let s1 :=
    if s.lastDirection.isSome ∧ currentDir.isSome ∧ currentDir ≠ s.lastDirection
    then s.reset else s
  let s2 : SwipeTracker :=
    ⟨s1.accumulatedX + deltaX, s1.accumulatedY + deltaY, s1.frameCount + 1, currentDir⟩
  if s2.accumulatedY < -SWIPE_THRESHOLD then (s2.reset, Option.some Dir.up)
  else if |s2.accumulatedX| > SWIPE_THRESHOLD then
    (s2.reset, Option.some (if s2.accumulatedX > 0 then Dir.left else Dir.right))
  else if s2.frameCount ≥ maxFrames then (s2.reset, Option.none)
  else (s2, Option.none)

/-- `detectGesture(landmarks, previousLandmarks)`: the per-frame
dispatcher. -/
def detectGesture (landmarks previousLandmarks : Option LandmarkList) : Gesture :=
  match landmarks with
  | Option.none => Gesture.none
  | Option.some l =>
    if l.length < 21 then Gesture.none
    else if isFist (Option.some l) then Gesture.fist
    else
      match previousLandmarks with
      | Option.some pl =>
        if pl.length ≥ 21 then
          match getSwipeDirection (getPalmCenter (Option.some l))
              (getPalmCenter (Option.some pl)) with
          | Option.some Dir.up => Gesture.swipeUp
          | Option.some Dir.left => Gesture.swipeLeft
          | Option.some Dir.right => Gesture.swipeRight
          | Option.none => Gesture.none
        else Gesture.none
      | Option.none => Gesture.none

/-- State of the debouncing `GestureStateManager`; `cooldownMs` is the
constructor argument, timestamps come from `Date.now()`. -/
structure GestureStateManager where
  lastGesture : Gesture
  gestureStartTime : ℤ
  cooldownMs : ℤ
  deriving DecidableEq

/-- `new GestureStateManager(cooldownMs)`. -/
def GestureStateManager.mkManager (cooldownMs : ℤ) : GestureStateManager :=
  ⟨Gesture.none, 0, cooldownMs⟩

/-- `processGesture(gesture)` with the `Date.now()` reading passed
explicitly; returns the updated state and the emitted gesture (TS `null`
as `Option.none`). -/
def GestureStateManager.processGesture (s : GestureStateManager) (gesture : Gesture)
    (now : ℤ) : GestureStateManager × Option Gesture :=
  if gesture = s.lastGesture ∧ gesture ≠ Gesture.none then (s, Option.none)
  else if now - s.gestureStartTime < s.cooldownMs ∧ gesture ≠ Gesture.none then
    (s, Option.none)
  else if gesture ≠ Gesture.none then
    ({ s with lastGesture := gesture, gestureStartTime := now }, Option.some gesture)
  else if gesture = Gesture.none ∧ s.lastGesture ≠ Gesture.none then
    ({ s with lastGesture := Gesture.none }, Option.none)
  else (s, Option.none)

/-- `reset()`: clear the last gesture and the timestamp. -/
def GestureStateManager.reset (s : GestureStateManager) : GestureStateManager :=
  { s with lastGesture := Gesture.none, gestureStartTime := 0 }

/-! ### Spec-side definitions and test fixtures -/

/-- The spec's step algorithm for MotionTracker (section 4.2, steps 1-8),
written from its prose: reversal zeroes only the accumulator sums and the
frame count; the instantaneous direction is then recorded, the delta
integrated, and the vertical, horizontal and stale-frame checks applied in
that order, each emission zeroing all state. Stated for comparison with
`SwipeTracker.track`. -/
def trackSpec (s : SwipeTracker) (currentCenter previousCenter : Point) :
    SwipeTracker × Option Dir :=
  let dx := currentCenter.x - previousCenter.x
  let dy := currentCenter.y - previousCenter.y
  let instDir : Option Dir :=
    if |dy| > |dx| ∧ dy < 0 then Option.some Dir.up
    else if dx > 0 then Option.some Dir.left
    else if dx < 0 then Option.some Dir.right
    else Option.none
  let s3 : SwipeTracker :=
    if s.lastDirection ≠ Option.none ∧ instDir ≠ Option.none ∧ instDir ≠ s.lastDirection
    then ⟨0, 0, 0, s.lastDirection⟩ else s
  let s4 : SwipeTracker :=
    ⟨s3.accumulatedX + dx, s3.accumulatedY + dy, s3.frameCount + 1, instDir⟩
  if s4.accumulatedY < -SWIPE_THRESHOLD then (⟨0, 0, 0, Option.none⟩, Option.some Dir.up)
  else if |s4.accumulatedX| > SWIPE_THRESHOLD then
    (⟨0, 0, 0, Option.none⟩,
      Option.some (if s4.accumulatedX > 0 then Dir.left else Dir.right))
  else if s4.frameCount ≥ maxFrames then (⟨0, 0, 0, Option.none⟩, Option.none)
  else (s4, Option.none)

/-- The dispatcher's mapping from a single-step direction to a gesture. -/
def dirToGesture : Option Dir → Gesture
  | Option.some Dir.up => Gesture.swipeUp
  | Option.some Dir.left => Gesture.swipeLeft
  | Option.some Dir.right => Gesture.swipeRight
  | Option.none => Gesture.none

/-- An invalid frame in the sense of the pipeline's guards: `null` or
fewer than 21 landmarks. -/
def invalidFrame (frame : Option LandmarkList) : Prop :=
  frame = Option.none ∨ ∃ l, frame = Option.some l ∧ l.length < 21

/-- A point at the centre of the image. -/
def basePt : Point := ⟨1 / 2, 1 / 2, 0⟩

/-- A 21-landmark frame with every landmark at the image centre; every
non-thumb finger has `mcp.y - tip.y = 0`, so it counts as a fist. -/
def baseFrame : LandmarkList := List.replicate 21 basePt

/-- A 21-landmark frame in which each non-thumb finger has
`mcp.y - tip.y = 0.06`, strictly between the open threshold 0.05 and the
fist threshold 0.07. -/
def ambiguousFrame : LandmarkList :=
  ((((baseFrame.set INDEX_MCP ⟨1 / 2, 56 / 100, 0⟩).set
    MIDDLE_MCP ⟨1 / 2, 56 / 100, 0⟩).set
    RING_MCP ⟨1 / 2, 56 / 100, 0⟩).set
    PINKY_MCP ⟨1 / 2, 56 / 100, 0⟩)

/-- A 21-landmark open-hand frame: each non-thumb tip is 0.1 above its
MCP joint, so no finger counts as closed and `isFist` is `false`. -/
def openFrame : LandmarkList :=
  ((((((((baseFrame.set INDEX_MCP ⟨1 / 2, 6 / 10, 0⟩).set
    INDEX_TIP ⟨1 / 2, 1 / 2, 0⟩).set
    MIDDLE_MCP ⟨1 / 2, 6 / 10, 0⟩).set MIDDLE_TIP ⟨1 / 2, 1 / 2, 0⟩).set
    RING_MCP ⟨1 / 2, 6 / 10, 0⟩).set RING_TIP ⟨1 / 2, 1 / 2, 0⟩).set
    PINKY_MCP ⟨1 / 2, 6 / 10, 0⟩).set PINKY_TIP ⟨1 / 2, 1 / 2, 0⟩)

/-- Translate every landmark of a frame horizontally by `d`. -/
def shiftX (d : ℚ) (l : LandmarkList) : LandmarkList :=
  l.map fun p => ⟨p.x + d, p.y, p.z⟩

/-- A 22-landmark frame (one landmark too many) whose first 21 landmarks
form a fist. -/
def fist22 : LandmarkList := baseFrame ++ [basePt]

/-- The states a `SwipeTracker` can be in after any sequence of `track`
and `reset` calls from the freshly constructed tracker. -/
inductive ReachableTracker : SwipeTracker → Prop where
  | init : ReachableTracker SwipeTracker.init
  | step (s : SwipeTracker) (c p : Point) :
      ReachableTracker s → ReachableTracker (s.track c p).1
  | reset (s : SwipeTracker) : ReachableTracker s → ReachableTracker s.reset

/-- Two frames agree on the x and y coordinates of the wrist and the four
MCP joints — the only landmarks `getPalmCenter` reads. -/
def palmAgree (l1 l2 : LandmarkList) : Prop :=
  ∀ i ∈ [WRIST, INDEX_MCP, MIDDLE_MCP, RING_MCP, PINKY_MCP],
    (l1.getD i defaultPoint).x = (l2.getD i defaultPoint).x ∧
    (l1.getD i defaultPoint).y = (l2.getD i defaultPoint).y

/-- `baseFrame` with every z coordinate changed and two fingertips moved:
it agrees with `baseFrame` only on the palm landmarks' x and y. -/
def noiseFrame : LandmarkList :=
  (((baseFrame.map fun p => ⟨p.x, p.y, p.z + 1⟩).set
    INDEX_TIP ⟨9 / 10, 9 / 10, 5⟩).set RING_TIP ⟨1 / 10, 8 / 10, 3⟩)

/-! ### Theorems -/

/-- C10: `isFist` and `isPalmOpen` are not mutually exclusive: there is a
valid 21-point frame, each of whose four non-thumb `mcp.y - tip.y`
differences lies strictly between the open threshold 0.05 and the fist
threshold 0.07, on which both classifiers return `true`. -/
theorem isFist_isPalmOpen_not_exclusive :
    ∃ l : LandmarkList, l.length = 21 ∧
      (∀ q ∈ [(INDEX_TIP, INDEX_MCP), (MIDDLE_TIP, MIDDLE_MCP),
          (RING_TIP, RING_MCP), (PINKY_TIP, PINKY_MCP)],
        5 / 100 < (l.getD q.2 defaultPoint).y - (l.getD q.1 defaultPoint).y ∧
        (l.getD q.2 defaultPoint).y - (l.getD q.1 defaultPoint).y < 7 / 100) ∧
      isFist (Option.some l) = true ∧ isPalmOpen (Option.some l) = true :=
  ⟨ambiguousFrame, by with_unfolding_all decide⟩

/-- C1 counterexample: a valid non-fist current frame and a valid
previous frame on which `detectGesture` returns `swipe-left` directly,
refuting the claim that the per-frame check only ever reports
`swipe-up`. -/
theorem detectGesture_direct_swipeLeft_cex :
    (shiftX (2 / 10) openFrame).length = 21 ∧ openFrame.length = 21 ∧
    isFist (Option.some (shiftX (2 / 10) openFrame)) = false ∧
    detectGesture (Option.some (shiftX (2 / 10) openFrame)) (Option.some openFrame) =
      Gesture.swipeLeft := by with_unfolding_all decide

/-- C1 amended: for every valid non-fist current frame and valid previous
frame, `detectGesture` maps the single-step direction to the matching
swipe gesture — `swipe-up`, `swipe-left` or `swipe-right` — and returns
`none` when there is no single-step classification. -/
theorem detectGesture_nonfist_eq_dirToGesture (curr prev : LandmarkList)
    (hc : 21 ≤ curr.length) (hp : 21 ≤ prev.length)
    (hf : isFist (Option.some curr) = false) :
    detectGesture (Option.some curr) (Option.some prev) =
      dirToGesture (getSwipeDirection (getPalmCenter (Option.some curr))
        (getPalmCenter (Option.some prev))) := by
  have hc' : ¬ curr.length < 21 := by omega
  unfold detectGesture
  simp only [hc', if_false, hf, Bool.false_eq_true, hp, if_true]
  cases h : getSwipeDirection (getPalmCenter (Option.some curr))
      (getPalmCenter (Option.some prev)) with
  | none => simp [dirToGesture]
  | some d => cases d <;> simp [dirToGesture]

/-- C1 amended, witness at a concrete frame pair. -/
theorem detectGesture_nonfist_eq_dirToGesture_witness :
    21 ≤ (shiftX (2 / 10) openFrame).length ∧ 21 ≤ openFrame.length ∧
    isFist (Option.some (shiftX (2 / 10) openFrame)) = false ∧
    detectGesture (Option.some (shiftX (2 / 10) openFrame)) (Option.some openFrame) =
      dirToGesture (getSwipeDirection
        (getPalmCenter (Option.some (shiftX (2 / 10) openFrame)))
        (getPalmCenter (Option.some openFrame))) :=
  ⟨by with_unfolding_all decide, by with_unfolding_all decide,
    by with_unfolding_all decide,
    detectGesture_nonfist_eq_dirToGesture _ _ (by with_unfolding_all decide)
      (by with_unfolding_all decide) (by with_unfolding_all decide)⟩

/-- C2 counterexample: a 22-landmark fist frame on which `isFist` returns
`true`, refuting the claim that every frame whose length differs from 21
is treated as no hand present. -/
theorem isFist_long_frame_cex :
    fist22.length = 22 ∧ isFist (Option.some fist22) = true := by
  with_unfolding_all decide

/-- C2 amended: every frame that is null or has fewer than 21 landmarks
is treated uniformly as no hand present: `isFist` and `isPalmOpen` return
`false`, `getPalmCenter` returns the origin, and `detectGesture` returns
`none`. -/
theorem invalid_frame_uniform (f prev : Option LandmarkList) (h : invalidFrame f) :
    isFist f = false ∧ isPalmOpen f = false ∧
    getPalmCenter f = ⟨0, 0, 0⟩ ∧ detectGesture f prev = Gesture.none := by
  rcases h with h | ⟨l, rfl, hl⟩
  · subst h
    exact ⟨rfl, rfl, rfl, rfl⟩
  · refine ⟨?_, ?_, ?_, ?_⟩ <;> simp [isFist, isPalmOpen, getPalmCenter, detectGesture, hl]

/-- C2 amended, witness at the empty frame. -/
theorem invalid_frame_uniform_witness :
    invalidFrame (Option.some ([] : LandmarkList)) ∧
    (isFist (Option.some ([] : LandmarkList)) = false ∧
     isPalmOpen (Option.some ([] : LandmarkList)) = false ∧
     getPalmCenter (Option.some ([] : LandmarkList)) = ⟨0, 0, 0⟩ ∧
     detectGesture (Option.some ([] : LandmarkList)) Option.none = Gesture.none) :=
  ⟨Or.inr ⟨[], rfl, by decide⟩,
    invalid_frame_uniform (Option.some []) Option.none (Or.inr ⟨[], rfl, by decide⟩)⟩

/-- C3 counterexample: a centre pair with Δx = 0.5 and Δy = −0.02, where
the horizontal magnitude dominates yet `getSwipeDirection` still returns
`up`, refuting the claimed `|Δy| > |Δx|` dominance condition. -/
theorem getSwipeDirection_up_without_dominance_cex :
    getSwipeDirection ⟨7 / 10, 48 / 100, 0⟩ ⟨2 / 10, 1 / 2, 0⟩ = Option.some Dir.up ∧
    ¬(|(48 / 100 : ℚ) - 1 / 2| > |(7 / 10 : ℚ) - 2 / 10|) ∧
    (7 / 10 : ℚ) - 2 / 10 > SWIPE_FRAME_THRESHOLD := by
  with_unfolding_all decide

/-- C3 amended: `getSwipeDirection` classifies `up` iff Δy < −0.015, with
no magnitude-dominance comparison against Δx (unlike MotionTracker step
2); otherwise `left` iff Δx > 0.015, `right` iff Δx < −0.015, and no
classification iff |Δx| ≤ 0.015. -/
theorem getSwipeDirection_characterization (c p : Point) :
    (getSwipeDirection c p = Option.some Dir.up ↔
      c.y - p.y < -SWIPE_FRAME_THRESHOLD) ∧
    (getSwipeDirection c p = Option.some Dir.left ↔
      ¬(c.y - p.y < -SWIPE_FRAME_THRESHOLD) ∧ c.x - p.x > SWIPE_FRAME_THRESHOLD) ∧
    (getSwipeDirection c p = Option.some Dir.right ↔
      ¬(c.y - p.y < -SWIPE_FRAME_THRESHOLD) ∧ c.x - p.x < -SWIPE_FRAME_THRESHOLD) ∧
    (getSwipeDirection c p = Option.none ↔
      ¬(c.y - p.y < -SWIPE_FRAME_THRESHOLD) ∧ |c.x - p.x| ≤ SWIPE_FRAME_THRESHOLD) := by
  have ht : (0 : ℚ) < SWIPE_FRAME_THRESHOLD := by norm_num [SWIPE_FRAME_THRESHOLD]
  unfold getSwipeDirection
  dsimp only
  split_ifs with h1 h2 h3
  · exact ⟨by simp [h1], by simp [h1], by simp [h1], by simp [h1]⟩
  · refine ⟨by simp [h1], by simp [h1, h2], ?_, ?_⟩
    · simp [h1]
      linarith
    · simp [h1]
      have := le_abs_self (c.x - p.x)
      linarith
  · refine ⟨by simp [h1], ?_, by simp [h1, h3], ?_⟩
    · simp [h1]
      linarith
    · simp [h1]
      have := neg_abs_le (c.x - p.x)
      linarith
  · refine ⟨by simp [h1], by simp [h1, h2], by simp [h1, h3], ?_⟩
    simp only [true_iff]
    exact ⟨h1, abs_le.mpr ⟨by linarith, by linarith⟩⟩

/-- C7: fist has the highest priority in the dispatcher: on every valid
21-point frame classified as a fist, `detectGesture` returns `fist`
whatever the previous frame is. -/
theorem detectGesture_fist_priority (curr : LandmarkList) (prev : Option LandmarkList)
    (hlen : curr.length = 21) (hfist : isFist (Option.some curr) = true) :
    detectGesture (Option.some curr) prev = Gesture.fist := by
  have hc' : ¬ curr.length < 21 := by omega
  unfold detectGesture
  simp [hc', hfist]

/-- C7 witness: a fist frame whose previous frame would otherwise imply a
left swipe, with and without a previous frame. -/
theorem detectGesture_fist_priority_witness :
    baseFrame.length = 21 ∧ isFist (Option.some baseFrame) = true ∧
    getSwipeDirection (getPalmCenter (Option.some baseFrame))
      (getPalmCenter (Option.some (shiftX (-(2 / 10)) baseFrame))) =
        Option.some Dir.left ∧
    detectGesture (Option.some baseFrame)
      (Option.some (shiftX (-(2 / 10)) baseFrame)) = Gesture.fist ∧
    detectGesture (Option.some baseFrame) Option.none = Gesture.fist :=
  ⟨by with_unfolding_all decide, by with_unfolding_all decide,
    by with_unfolding_all decide,
    detectGesture_fist_priority baseFrame (Option.some (shiftX (-(2 / 10)) baseFrame))
      (by with_unfolding_all decide) (by with_unfolding_all decide),
    detectGesture_fist_priority baseFrame Option.none
      (by with_unfolding_all decide) (by with_unfolding_all decide)⟩

/-- C4: `SwipeTracker.track` coincides with the spec's step algorithm
(`trackSpec`) on every state and every palm-centre pair: reversal zeroes
the accumulator before the delta is integrated, the vertical threshold is
checked before the horizontal one, each emission zeroes all state, and
reaching 10 frames without a crossing zeroes all state and returns
nothing. -/
theorem track_eq_trackSpec (s : SwipeTracker) (c p : Point) :
    s.track c p = trackSpec s c p := by
  unfold SwipeTracker.track trackSpec SwipeTracker.reset
  dsimp only
  simp only [Option.isSome_iff_ne_none]
  split_ifs <;> simp_all

/-- C9: `getPalmCenter` reads only the x and y coordinates of the wrist
and the four MCP joints: any two frames of length at least 21 agreeing on
those ten coordinates get the same palm centre, whatever their z
coordinates and other landmarks. -/
theorem getPalmCenter_depends_only_on_palm_xy (l1 l2 : LandmarkList)
    (h1 : 21 ≤ l1.length) (h2 : 21 ≤ l2.length) (hagree : palmAgree l1 l2) :
    getPalmCenter (Option.some l1) = getPalmCenter (Option.some l2) := by
  have h1' : ¬ l1.length < 21 := by omega
  have h2' : ¬ l2.length < 21 := by omega
  have e0 := hagree WRIST (by decide)
  have e5 := hagree INDEX_MCP (by decide)
  have e9 := hagree MIDDLE_MCP (by decide)
  have e13 := hagree RING_MCP (by decide)
  have e17 := hagree PINKY_MCP (by decide)
  unfold getPalmCenter
  dsimp only
  rw [if_neg h1', if_neg h2']
  simp only [List.map_cons, List.map_nil, List.sum_cons, List.sum_nil]
  rw [e0.1, e5.1, e9.1, e13.1, e17.1, e0.2, e5.2, e9.2, e13.2, e17.2]

/-- C9 witness: `noiseFrame` differs from `baseFrame` in every z
coordinate and in two fingertips, yet the palm centres coincide. -/
theorem getPalmCenter_depends_only_on_palm_xy_witness :
    21 ≤ baseFrame.length ∧ 21 ≤ noiseFrame.length ∧ palmAgree baseFrame noiseFrame ∧
    getPalmCenter (Option.some baseFrame) = getPalmCenter (Option.some noiseFrame) :=
  ⟨by with_unfolding_all decide, by with_unfolding_all decide,
    by unfold palmAgree; with_unfolding_all decide,
    getPalmCenter_depends_only_on_palm_xy baseFrame noiseFrame
      (by with_unfolding_all decide) (by with_unfolding_all decide)
      (by unfold palmAgree; with_unfolding_all decide)⟩

/-- Helper: the threshold-check tail of `track` always produces a state
within the accumulator bounds, whatever the integrated values are. -/
theorem trackOutcome_bounds (a b : ℚ) (n : ℕ) (d : Option Dir) :
    (fun r : SwipeTracker × Option Dir =>
      r.1.frameCount ≤ 9 ∧ |r.1.accumulatedX| ≤ SWIPE_THRESHOLD ∧
        -SWIPE_THRESHOLD ≤ r.1.accumulatedY)
    (if b < -SWIPE_THRESHOLD then
      ((⟨0, 0, 0, Option.none⟩ : SwipeTracker), Option.some Dir.up)
    else if |a| > SWIPE_THRESHOLD then
      ((⟨0, 0, 0, Option.none⟩ : SwipeTracker),
        Option.some (if a > 0 then Dir.left else Dir.right))
    else if n ≥ maxFrames then
      ((⟨0, 0, 0, Option.none⟩ : SwipeTracker), Option.none)
    else ((⟨a, b, n, d⟩ : SwipeTracker), Option.none)) := by
  dsimp only
  split_ifs with h1 h2 h3 h4
  · with_unfolding_all decide
  · with_unfolding_all decide
  · with_unfolding_all decide
  · with_unfolding_all decide
  · refine ⟨?_, ?_, ?_⟩ <;> dsimp only
    · have h4' : ¬ n ≥ 10 := by simpa [maxFrames] using h4
      omega
    · exact le_of_not_lt h2
    · exact le_of_not_lt h1

/-- Helper: the state returned by `track` always satisfies the
accumulator bounds, whatever state it starts from. -/
theorem track_fst_bounds (s : SwipeTracker) (c p : Point) :
    (s.track c p).1.frameCount ≤ 9 ∧
    |(s.track c p).1.accumulatedX| ≤ SWIPE_THRESHOLD ∧
    -SWIPE_THRESHOLD ≤ (s.track c p).1.accumulatedY := by
  unfold SwipeTracker.track SwipeTracker.reset
  dsimp only
  exact trackOutcome_bounds _ _ _ _

/-- Helper: whenever `track` returns a direction it has reset its state
to the initial one. -/
theorem track_emit_resets (s : SwipeTracker) (c p : Point) :
    (s.track c p).2 = Option.none ∨ (s.track c p).1 = SwipeTracker.init := by
  unfold SwipeTracker.track SwipeTracker.reset SwipeTracker.init
  dsimp only
  split_ifs <;> simp

/-- C8: every `SwipeTracker` state reachable by `track` and `reset` calls
from the initial state keeps the frame count at most 9, the accumulated
Δx within ±0.06 and the accumulated Δy above −0.06; and any call that
returns a direction leaves the state equal to the zeroed initial state
(accumulators zeroed, last direction cleared). -/
theorem swipeTracker_reachable_invariant (s : SwipeTracker) (c p : Point)
    (h : ReachableTracker s) :
    (s.frameCount ≤ 9 ∧ |s.accumulatedX| ≤ SWIPE_THRESHOLD ∧
      -SWIPE_THRESHOLD ≤ s.accumulatedY) ∧
    ((s.track c p).2 = Option.none ∨ (s.track c p).1 = SwipeTracker.init) := by
  refine ⟨?_, track_emit_resets s c p⟩
  induction h with
  | init =>
    refine ⟨by norm_num [SwipeTracker.init], ?_, ?_⟩ <;>
      norm_num [SwipeTracker.init, SWIPE_THRESHOLD]
  | step s' c' p' _ _ => exact track_fst_bounds s' c' p'
  | reset s' _ _ =>
    refine ⟨by norm_num [SwipeTracker.reset], ?_, ?_⟩ <;>
      norm_num [SwipeTracker.reset, SWIPE_THRESHOLD]

/-- C8 witness: the initial state satisfies the invariant, and a call
whose accumulated Δy crosses −0.06 emits and leaves the initial state. -/
theorem swipeTracker_reachable_invariant_witness :
    (SwipeTracker.init.frameCount ≤ 9 ∧
      |SwipeTracker.init.accumulatedX| ≤ SWIPE_THRESHOLD ∧
      -SWIPE_THRESHOLD ≤ SwipeTracker.init.accumulatedY) ∧
    ((SwipeTracker.init.track ⟨0, 0, 0⟩ ⟨0, 1 / 10, 0⟩).2 = Option.none ∨
      (SwipeTracker.init.track ⟨0, 0, 0⟩ ⟨0, 1 / 10, 0⟩).1 = SwipeTracker.init) :=
  swipeTracker_reachable_invariant SwipeTracker.init ⟨0, 0, 0⟩ ⟨0, 1 / 10, 0⟩
    ReachableTracker.init

/-- C5: from the initial debounce state, the first non-none gesture at a
clock time past the cooldown is emitted; an immediate identical repeat is
suppressed; a different non-none gesture inside the cooldown window is
also suppressed (the cooldown is global); and after `reset()` the same
gesture is immediately emitted again. -/
theorem debounce_single_shot (cd t0 : ℤ) (g g2 : Gesture)
    (hcd : 1 < cd) (ht : cd ≤ t0) (hg : g ≠ Gesture.none)
    (hg2 : g2 ≠ Gesture.none) (hne : g2 ≠ g) :
    ((GestureStateManager.mkManager cd).processGesture g t0).2 = Option.some g ∧
    ((((GestureStateManager.mkManager cd).processGesture g t0).1).processGesture g
      (t0 + 1)).2 = Option.none ∧
    ((((GestureStateManager.mkManager cd).processGesture g t0).1).processGesture g2
      (t0 + 1)).2 = Option.none ∧
    (((((GestureStateManager.mkManager cd).processGesture g t0).1).reset).processGesture
      g (t0 + 1)).2 = Option.some g := by
  have e1 : (GestureStateManager.mkManager cd).processGesture g t0 =
      (⟨g, t0, cd⟩, Option.some g) := by
    unfold GestureStateManager.mkManager GestureStateManager.processGesture
    dsimp only
    rw [if_neg fun h => hg h.1, if_neg fun h => absurd h.1 (by omega), if_pos hg]
  have e2 : (⟨g, t0, cd⟩ : GestureStateManager).processGesture g (t0 + 1) =
      (⟨g, t0, cd⟩, Option.none) := by
    unfold GestureStateManager.processGesture
    dsimp only
    rw [if_pos ⟨rfl, hg⟩]
  have e3 : (⟨g, t0, cd⟩ : GestureStateManager).processGesture g2 (t0 + 1) =
      (⟨g, t0, cd⟩, Option.none) := by
    unfold GestureStateManager.processGesture
    dsimp only
    rw [if_neg fun h => hne h.1, if_pos ⟨by omega, hg2⟩]
  have e4 : ((⟨g, t0, cd⟩ : GestureStateManager).reset).processGesture g (t0 + 1) =
      (⟨g, t0 + 1, cd⟩, Option.some g) := by
    unfold GestureStateManager.reset GestureStateManager.processGesture
    dsimp only
    rw [if_neg fun h => hg h.1, if_neg fun h => absurd h.1 (by omega), if_pos hg]
  rw [e1]
  exact ⟨rfl, by rw [e2], by rw [e3], by rw [e4]⟩

/-- C5 witness at cooldown 500 and start time 1000, with `fist` repeated
and `swipe-left` inside the cooldown. -/
theorem debounce_single_shot_witness :
    (1 : ℤ) < 500 ∧ (500 : ℤ) ≤ 1000 ∧
    ((GestureStateManager.mkManager 500).processGesture Gesture.fist 1000).2 =
      Option.some Gesture.fist ∧
    ((((GestureStateManager.mkManager 500).processGesture Gesture.fist 1000).1).processGesture
      Gesture.fist (1000 + 1)).2 = Option.none ∧
    ((((GestureStateManager.mkManager 500).processGesture Gesture.fist 1000).1).processGesture
      Gesture.swipeLeft (1000 + 1)).2 = Option.none ∧
    (((((GestureStateManager.mkManager 500).processGesture Gesture.fist 1000).1).reset).processGesture
      Gesture.fist (1000 + 1)).2 = Option.some Gesture.fist :=
  ⟨by decide, by decide,
    debounce_single_shot 500 1000 Gesture.fist Gesture.swipeLeft
      (by decide) (by decide) (by decide) (by decide) (by decide)⟩

/-- C6: once a gesture is locked in, a different non-none gesture past
the cooldown is emitted and starts a new lock; the same gesture is
suppressed at every time, however far past the cooldown, with the state
unchanged; an observed `none` clears the last gesture (keeping the
timestamp); and after that the original gesture past the cooldown is
emitted again. -/
theorem debounce_latching (s : GestureStateManager) (g2 : Gesture) (t u t2 t3 : ℤ)
    (hG : s.lastGesture ≠ Gesture.none) (h2 : g2 ≠ Gesture.none)
    (hne : g2 ≠ s.lastGesture)
    (hcool : s.cooldownMs ≤ t - s.gestureStartTime)
    (hcool3 : s.cooldownMs ≤ t3 - s.gestureStartTime) :
    (s.processGesture g2 t).2 = Option.some g2 ∧
    (s.processGesture g2 t).1 = ⟨g2, t, s.cooldownMs⟩ ∧
    (s.processGesture s.lastGesture u).2 = Option.none ∧
    (s.processGesture s.lastGesture u).1 = s ∧
    (s.processGesture Gesture.none t2).1 =
      ⟨Gesture.none, s.gestureStartTime, s.cooldownMs⟩ ∧
    (s.processGesture Gesture.none t2).2 = Option.none ∧
    (((s.processGesture Gesture.none t2).1).processGesture s.lastGesture t3).2 =
      Option.some s.lastGesture := by
  have e1 : s.processGesture g2 t = (⟨g2, t, s.cooldownMs⟩, Option.some g2) := by
    unfold GestureStateManager.processGesture
    rw [if_neg fun h => hne h.1, if_neg fun h => absurd h.1 (by omega), if_pos h2]
  have e2 : s.processGesture s.lastGesture u = (s, Option.none) := by
    unfold GestureStateManager.processGesture
    rw [if_pos ⟨rfl, hG⟩]
  have e3 : s.processGesture Gesture.none t2 =
      (⟨Gesture.none, s.gestureStartTime, s.cooldownMs⟩, Option.none) := by
    unfold GestureStateManager.processGesture
    rw [if_neg fun h => h.2 rfl, if_neg fun h => h.2 rfl, if_neg fun h => h rfl,
      if_pos ⟨rfl, hG⟩]
  have e4 : (⟨Gesture.none, s.gestureStartTime, s.cooldownMs⟩ :
      GestureStateManager).processGesture s.lastGesture t3 =
      (⟨s.lastGesture, t3, s.cooldownMs⟩, Option.some s.lastGesture) := by
    unfold GestureStateManager.processGesture
    dsimp only
    rw [if_neg fun h => hG h.1, if_neg fun h => absurd h.1 (by omega), if_pos hG]
  refine ⟨by rw [e1], by rw [e1], by rw [e2], by rw [e2], by rw [e3], by rw [e3], ?_⟩
  rw [e3]
  dsimp only
  rw [e4]

/-- C6 witness: lock state `fist` at time 1000 with cooldown 500; a
different gesture at 1500 is accepted, `fist` at 99999 is still
suppressed, and after a `none` at 1600, `fist` at 1700 is emitted. -/
theorem debounce_latching_witness :
    ((⟨Gesture.fist, 1000, 500⟩ : GestureStateManager).lastGesture ≠ Gesture.none) ∧
    ((⟨Gesture.fist, 1000, 500⟩ : GestureStateManager).processGesture Gesture.swipeLeft
      1500).2 = Option.some Gesture.swipeLeft ∧
    ((⟨Gesture.fist, 1000, 500⟩ : GestureStateManager).processGesture Gesture.swipeLeft
      1500).1 = ⟨Gesture.swipeLeft, 1500,
        (⟨Gesture.fist, 1000, 500⟩ : GestureStateManager).cooldownMs⟩ ∧
    ((⟨Gesture.fist, 1000, 500⟩ : GestureStateManager).processGesture
      (⟨Gesture.fist, 1000, 500⟩ : GestureStateManager).lastGesture 99999).2 =
        Option.none ∧
    ((⟨Gesture.fist, 1000, 500⟩ : GestureStateManager).processGesture
      (⟨Gesture.fist, 1000, 500⟩ : GestureStateManager).lastGesture 99999).1 =
        ⟨Gesture.fist, 1000, 500⟩ ∧
    ((⟨Gesture.fist, 1000, 500⟩ : GestureStateManager).processGesture Gesture.none
      1600).1 = ⟨Gesture.none,
        (⟨Gesture.fist, 1000, 500⟩ : GestureStateManager).gestureStartTime,
        (⟨Gesture.fist, 1000, 500⟩ : GestureStateManager).cooldownMs⟩ ∧
    ((⟨Gesture.fist, 1000, 500⟩ : GestureStateManager).processGesture Gesture.none
      1600).2 = Option.none ∧
    ((((⟨Gesture.fist, 1000, 500⟩ : GestureStateManager).processGesture Gesture.none
      1600).1).processGesture
        (⟨Gesture.fist, 1000, 500⟩ : GestureStateManager).lastGesture 1700).2 =
      Option.some (⟨Gesture.fist, 1000, 500⟩ : GestureStateManager).lastGesture :=
  ⟨by decide,
    debounce_latching ⟨Gesture.fist, 1000, 500⟩ Gesture.swipeLeft 1500 99999 1600 1700
      (by decide) (by decide) (by decide) (by decide) (by decide)⟩

end Taror
